import Mathlib

/-!
Shallow embedding of the okta-idx-golang client (files idx.go and
reset_password.go) for checking the natural-language specification.

Network effects (Interact, Introspect, Proceed, ExchangeCode, Cancel) are
modelled by an explicit oracle environment; every flow function returns,
besides its result, the list of network calls it issued, so that
"no network interaction" is a statement about the returned trace.
The remediation-document model (response.go is not among the sources)
is modelled from the specification, as marked on each definition.
-/

set_option maxRecDepth 4000

/-- Steps of the password-reset state machine, from the constant block of
reset_password.go. -/
inductive ResetPasswordStep where
  | emailVerification
  | emailConfirmation
  | answerSecurityQuestion
  | newPassword
  | cancel
  | skip
  | success
deriving DecidableEq, Repr

/-- Modelled from the spec: the SecurityQuestion record (questionKey and
human-readable question), whose type lives in the part of the repository
that is not among the sources. -/
structure SecurityQuestion where
  questionKey : String
  question : String
deriving DecidableEq, Repr

/-- Modelled from the spec: the opaque token bundle returned by token
exchange (its fields are irrelevant to the flows). -/
structure Token where
  accessToken : String
deriving DecidableEq, Repr

/-- The session context from idx.go: PKCE code verifier, server-issued
interaction handle, anti-forgery state. -/
structure IdxContext where
  codeVerifier : String
  interactionHandle : String
  state : String
deriving DecidableEq, Repr

/-- Error values produced by the client; constructors record the data the
corresponding Go error messages interpolate. -/
inductive Err where
  | stepNotAvailable : List ResetPasswordStep → Err
  | optionNotFound : String → Err
  | authenticatorNotFound : String → String → Err
  | deadEnd : List String → Err
  | enrollmentMissing : Option (List String) → Err
  | shapeErr : String → Err
  | transport : String → Err
deriving DecidableEq, Repr

/-- Modelled from the spec: one field of a nested form inside a
remediation option (name, label, value), per the document model of
response.go which is not among the sources. -/
structure InnerField where
  name : String
  label : String
  value : String
deriving DecidableEq, Repr

/-- Modelled from the spec: a nested form wrapped by a form field. -/
structure InnerForm where
  formValues : List InnerField
deriving DecidableEq, Repr

/-- Modelled from the spec: one authenticator choice inside an
authenticator-selection option: a human label and a machine identifier. -/
structure AuthChoice where
  label : String
  id : String
deriving DecidableEq, Repr

/-- Modelled from the spec: a form field of a remediation option; it may
wrap a nested form and may carry authenticator choices. -/
structure FormValue where
  name : String
  label : String
  value : String
  form : Option InnerForm
  options : List AuthChoice
deriving DecidableEq, Repr

/-- Modelled from the spec: a named remediation option with its ordered
form fields. The identityFirst field models the provider capability that
IsIdentityFirst (response.go, not among the sources) reports; none models
its error case. -/
structure RemediationOption where
  name : String
  formValues : List FormValue
  identityFirst : Option Bool
deriving DecidableEq, Repr

/-- Modelled from the spec: the message list a document may carry
(severity and text collapsed to the text). -/
structure MessagesObj where
  values : List String
deriving DecidableEq, Repr

/-- Modelled from the spec: the parsed remediation document. Success and
cancel markers and the current-authenticator enrollment are presence
markers; their submission targets are reached through the network
oracle. -/
structure Response where
  remediation : List RemediationOption
  messages : Option MessagesObj
  cancelResponse : Option Unit
  successResponse : Option Unit
  currentAuthenticatorEnrollment : Option Unit
deriving DecidableEq, Repr

/-- Modelled from the spec: terminal-state predicate over the success
marker. -/
def Response.LoginSuccess (r : Response) : Bool :=
  r.successResponse.isSome

/-- Modelled from the spec: find the remediation option with the given
name, or fail with a not-found error. -/
def Response.remediationOption (r : Response) (name : String) :
    Except Err RemediationOption :=
  match r.remediation.find? (fun ro => ro.name == name) with
  | some ro => Except.ok ro
  | none => Except.error (Err.optionNotFound name)

/-- Modelled from the spec: locate the named option, scan its nested
authenticator choices for one whose label matches, and return the option
together with the matched authenticator identifier. -/
def Response.authenticatorOption (r : Response) (optionName label : String) :
    Except Err (RemediationOption × String) :=
  match r.remediationOption optionName with
  | Except.error e => Except.error e
  | Except.ok ro =>
    match (ro.formValues.map FormValue.options).flatten.find?
        (fun c => c.label == label) with
    | some c => Except.ok (ro, c.id)
    | none => Except.error (Err.authenticatorNotFound optionName label)

/-- Modelled from the spec: whether the provider is configured for the
identifier-first flow, as reported by IsIdentityFirst on the identify
option. -/
def RemediationOption.IsIdentityFirst (ro : RemediationOption) :
    Except Err Bool :=
  match ro.identityFirst with
  | some b => Except.ok b
  | none => Except.error (Err.shapeErr "IsIdentityFirst")

/-- The questionKey scan of setupNextSteps (reset_password.go, lines
276-293): first form field wrapping a non-empty nested form that contains
a field named questionKey; that inner field is returned. -/
def findQuestionKey : List FormValue → Option InnerField
  | [] => none
  | fv :: rest =>
    match fv.form with
    | some f =>
      if f.formValues.length > 0 then
        match f.formValues.find? (fun fld => fld.name == "questionKey") with
        | some fld => some fld
        | none => findQuestionKey rest
      else findQuestionKey rest
    | none => findQuestionKey rest

/-- The New-password scan of setupNextSteps (reset_password.go, lines
294-307): whether some form field wraps a non-empty nested form containing
a field labelled New password. -/
def hasNewPasswordField : List FormValue → Bool
  | [] => false
  | fv :: rest =>
    match fv.form with
    | some f =>
      if f.formValues.length > 0 then
        if f.formValues.any (fun fld => fld.label == "New password") then
          true
        else hasNewPasswordField rest
      else hasNewPasswordField rest
    | none => hasNewPasswordField rest

/-- One recorded network interaction. -/
inductive NetCall where
  | interactCall
  | introspectCall
  | proceedCall : String → String → NetCall
  | recoverProceedCall
  | exchangeCodeCall : String → NetCall
  | cancelNetCall
deriving DecidableEq, Repr

/-- Modelled from the spec: the transport oracle. Each field is the
remote end of one network primitive the flows invoke (Interact,
Introspect, Proceed on an option, Proceed on the nested recover option,
ExchangeCode, the document's cancel transition), plus the configured
client secret read by ClientSecret(). -/
structure NetEnv where
  interact : Except Err IdxContext
  introspect : Except Err Response
  proceed : String → String → Except Err Response
  recoverProceed : Except Err Response
  exchangeCode : String → Except Err Token
  cancelResp : Except Err Response
  clientSecret : String

/-- The password-reset response object of reset_password.go. -/
structure ResetPasswordResponse where
  idxContext : IdxContext
  token : Option Token
  availableSteps : List ResetPasswordStep
  sq : Option SecurityQuestion
deriving DecidableEq, Repr

/-- Outcome of a transition method: the Go return value together with the
post-state of the receiver object (which Go mutates in place). nilDeref
records a nil-pointer dereference (a Go runtime panic). -/
inductive TransOut where
  | ok : ResetPasswordResponse → TransOut
  | err : Err → ResetPasswordResponse → TransOut
  | nilDeref : String → ResetPasswordResponse → TransOut
deriving DecidableEq, Repr

/-- The receiver's state after the call, whatever the outcome. -/
def TransOut.post : TransOut → ResetPasswordResponse
  | TransOut.ok r => r
  | TransOut.err _ r => r
  | TransOut.nilDeref _ r => r

/-- Outcome of InitPasswordReset, which has no pre-existing receiver. -/
inductive InitOut where
  | ok : ResetPasswordResponse → InitOut
  | err : Err → InitOut
  | nilDeref : String → InitOut
deriving DecidableEq, Repr

/-- The token-exchange payload built by string concatenation in
setupNextSteps (reset_password.go, lines 252-255) and handleRemediation
(idx.go, lines 304-307). -/
def exchangeForm (secret verifier : String) : String :=
  "\x7b\n\t\"client_secret\": \"" ++ secret ++
    "\",\n\t\"code_verifier\": \"" ++ verifier ++ "\"\n\x7d"

/-- The authenticator-selection payload of VerifyEmail (lines 82-86). -/
def authenticatorPayload (authID : String) : String :=
  "\x7b\n\t\"authenticator\": \x7b\n\t\t\"id\": \"" ++ authID ++
    "\"\n\t\x7d\n\x7d"

/-- The security-question credentials payload of AnswerSecurityQuestion
(lines 118-123). -/
def credentialsPayload (questionKey answer : String) : String :=
  "\x7b\n\t\"credentials\": \x7b\n\t\t\"questionKey\": \"" ++ questionKey ++
    "\",\n\t\t\"answer\": \"" ++ answer ++ "\"\n\t\x7d\n\x7d"

/-- The passcode payload used by confirmWithCode (lines 324-328) and
SetNewPassword (lines 148-152); both trim their argument. -/
def passcodePayload (code : String) : String :=
  "\x7b\n\t\"credentials\": \x7b\n\t\t\"passcode\": \"" ++ code.trim ++
    "\"\n\t\x7d\n\x7d"

/-- The identify request of InitPasswordReset, JSON-marshalled from
IdentifyRequest (reset_password.go, lines 17-20, 35). -/
structure IdentifyRequest where
  identifier : String
  rememberMe : Bool
deriving DecidableEq, Repr

/-- JSON marshalling of IdentifyRequest. -/
def identifyPayload (ir : IdentifyRequest) : String :=
  "\x7b\"identifier\":\"" ++ ir.identifier ++ "\",\"remember_me\":" ++
    (if ir.rememberMe then "true" else "false") ++ "\x7d"

/-- HasStep of reset_password.go (lines 199-206): linear scan of the
available steps for the given step. -/
def HasStep (r : ResetPasswordResponse) (s : ResetPasswordStep) : Bool :=
  r.availableSteps.any (fun x => x == s)

/-- AvailableSteps of reset_password.go (lines 194-196). -/
def AvailableSteps (r : ResetPasswordResponse) : List ResetPasswordStep :=
  r.availableSteps

/-- The step list computed by the non-success arm of setupNextSteps
(reset_password.go, lines 264-307): independent probes of the document,
in source order (cancel, email verification, skip, security question,
new password). -/
def computeSteps (resp : Response) : List ResetPasswordStep :=
  let steps : List ResetPasswordStep := []
  let steps :=
    if resp.cancelResponse.isSome then steps ++ [ResetPasswordStep.cancel]
    else steps
  let steps :=
    match resp.authenticatorOption "select-authenticator-authenticate" "Email" with
    | Except.ok _ => steps ++ [ResetPasswordStep.emailVerification]
    | Except.error _ => steps
  let steps :=
    match resp.remediationOption "skip" with
    | Except.ok _ => steps ++ [ResetPasswordStep.skip]
    | Except.error _ => steps
  let steps :=
    match resp.remediationOption "challenge-authenticator" with
    | Except.ok ro =>
      match findQuestionKey ro.formValues with
      | some _ => steps ++ [ResetPasswordStep.answerSecurityQuestion]
      | none => steps
    | Except.error _ => steps
  let steps :=
    match resp.remediationOption "reset-authenticator" with
    | Except.ok ro =>
      if hasNewPasswordField ro.formValues then
        steps ++ [ResetPasswordStep.newPassword]
      else steps
    | Except.error _ => steps
  steps

/-- The cached security question after the non-success arm of
setupNextSteps: replaced when the challenge-authenticator probe finds a
questionKey field (reset_password.go, lines 283-286), untouched
otherwise. -/
def nextSq (resp : Response) (old : Option SecurityQuestion) :
    Option SecurityQuestion :=
  match resp.remediationOption "challenge-authenticator" with
  | Except.ok ro =>
    match findQuestionKey ro.formValues with
    | some fld => some { questionKey := fld.value, question := fld.label }
    | none => old
  | Except.error _ => old

/-- setupNextSteps of reset_password.go (lines 250-313). On a success
document it exchanges the code (one network call) and sets the steps to
exactly the success step; otherwise it probes the document, errors on an
empty step list (dereferencing the absent message list when there is
none), and installs the steps and the cached security question. -/
def setupNextSteps (env : NetEnv) (r : ResetPasswordResponse)
    (resp : Response) : TransOut × List NetCall :=
  if resp.LoginSuccess then
    let form := exchangeForm env.clientSecret r.idxContext.codeVerifier
    match env.exchangeCode form with
    | Except.error e => (TransOut.err e r, [NetCall.exchangeCodeCall form])
    | Except.ok tokens =>
      (TransOut.ok { r with token := some tokens,
                            availableSteps := [ResetPasswordStep.success] },
       [NetCall.exchangeCodeCall form])
  else
    let steps := computeSteps resp
    let sq := nextSq resp r.sq
    if steps.isEmpty then
      match resp.messages with
      | none => (TransOut.nilDeref "resp.Messages" { r with sq := sq }, [])
      | some m => (TransOut.err (Err.deadEnd m.values) { r with sq := sq }, [])
    else
      (TransOut.ok { r with availableSteps := steps, sq := sq }, [])

/-- VerifyEmail of reset_password.go (lines 60-97). -/
def VerifyEmail (env : NetEnv) (r : ResetPasswordResponse) :
    TransOut × List NetCall :=
  if HasStep r ResetPasswordStep.emailVerification then
    match env.introspect with
    | Except.error e => (TransOut.err e r, [NetCall.introspectCall])
    | Except.ok resp =>
      match resp.currentAuthenticatorEnrollment with
      | none =>
        (TransOut.err (Err.enrollmentMissing (resp.messages.map MessagesObj.values)) r,
         [NetCall.introspectCall])
      | some _ =>
        match env.recoverProceed with
        | Except.error e =>
          (TransOut.err e r, [NetCall.introspectCall, NetCall.recoverProceedCall])
        | Except.ok resp2 =>
          match resp2.authenticatorOption "select-authenticator-authenticate" "Email" with
          | Except.error e =>
            (TransOut.err e r, [NetCall.introspectCall, NetCall.recoverProceedCall])
          | Except.ok (ro, authID) =>
            let payload := authenticatorPayload authID
            match env.proceed ro.name payload with
            | Except.error e =>
              (TransOut.err e r,
               [NetCall.introspectCall, NetCall.recoverProceedCall,
                NetCall.proceedCall ro.name payload])
            | Except.ok resp3 =>
              let pr := setupNextSteps env r resp3
              let trace := [NetCall.introspectCall, NetCall.recoverProceedCall,
                            NetCall.proceedCall ro.name payload] ++ pr.2
              match pr.1 with
              | TransOut.ok r1 =>
                (TransOut.ok { r1 with availableSteps :=
                    r1.availableSteps ++ [ResetPasswordStep.emailConfirmation] },
                 trace)
              | TransOut.err e r1 => (TransOut.err e r1, trace)
              | TransOut.nilDeref w r1 => (TransOut.nilDeref w r1, trace)
  else
    (TransOut.err (Err.stepNotAvailable (AvailableSteps r)) r, [])

/-- confirmWithCode of reset_password.go (lines 315-338). -/
def confirmWithCode (env : NetEnv) (r : ResetPasswordResponse)
    (code : String) : TransOut × List NetCall :=
  match env.introspect with
  | Except.error e => (TransOut.err e r, [NetCall.introspectCall])
  | Except.ok resp =>
    match resp.remediationOption "challenge-authenticator" with
    | Except.error e => (TransOut.err e r, [NetCall.introspectCall])
    | Except.ok ro =>
      let payload := passcodePayload code
      match env.proceed ro.name payload with
      | Except.error e =>
        (TransOut.err e r, [NetCall.introspectCall, NetCall.proceedCall ro.name payload])
      | Except.ok resp2 =>
        let pr := setupNextSteps env r resp2
        (pr.1, [NetCall.introspectCall, NetCall.proceedCall ro.name payload] ++ pr.2)

/-- ConfirmEmail of reset_password.go (lines 99-104). -/
def ConfirmEmail (env : NetEnv) (r : ResetPasswordResponse)
    (code : String) : TransOut × List NetCall :=
  if HasStep r ResetPasswordStep.emailConfirmation then
    confirmWithCode env r code
  else
    (TransOut.err (Err.stepNotAvailable (AvailableSteps r)) r, [])

/-- AnswerSecurityQuestion of reset_password.go (lines 106-134). The
deferred clearing of the cached question is registered only after the
Proceed submission succeeds; it then applies to every later exit,
including the error exit of setupNextSteps. Reading the question key of
an absent cached question is a nil dereference. -/
def AnswerSecurityQuestion (env : NetEnv) (r : ResetPasswordResponse)
    (answer : String) : TransOut × List NetCall :=
  if HasStep r ResetPasswordStep.answerSecurityQuestion then
    match env.introspect with
    | Except.error e => (TransOut.err e r, [NetCall.introspectCall])
    | Except.ok resp =>
      match resp.remediationOption "challenge-authenticator" with
      | Except.error e => (TransOut.err e r, [NetCall.introspectCall])
      | Except.ok ro =>
        match r.sq with
        | none => (TransOut.nilDeref "r.sq" r, [NetCall.introspectCall])
        | some sq =>
          let payload := credentialsPayload sq.questionKey answer
          match env.proceed ro.name payload with
          | Except.error e =>
            (TransOut.err e r,
             [NetCall.introspectCall, NetCall.proceedCall ro.name payload])
          | Except.ok resp2 =>
            let pr := setupNextSteps env r resp2
            let trace := [NetCall.introspectCall,
                          NetCall.proceedCall ro.name payload] ++ pr.2
            match pr.1 with
            | TransOut.ok r1 => (TransOut.ok { r1 with sq := none }, trace)
            | TransOut.err e r1 => (TransOut.err e { r1 with sq := none }, trace)
            | TransOut.nilDeref w r1 =>
              (TransOut.nilDeref w { r1 with sq := none }, trace)
  else
    (TransOut.err (Err.stepNotAvailable (AvailableSteps r)) r, [])

/-- SetNewPassword of reset_password.go (lines 136-162). -/
def SetNewPassword (env : NetEnv) (r : ResetPasswordResponse)
    (password : String) : TransOut × List NetCall :=
  if HasStep r ResetPasswordStep.newPassword then
    match env.introspect with
    | Except.error e => (TransOut.err e r, [NetCall.introspectCall])
    | Except.ok resp =>
      match resp.remediationOption "reset-authenticator" with
      | Except.error e => (TransOut.err e r, [NetCall.introspectCall])
      | Except.ok ro =>
        let payload := passcodePayload password
        match env.proceed ro.name payload with
        | Except.error e =>
          (TransOut.err e r,
           [NetCall.introspectCall, NetCall.proceedCall ro.name payload])
        | Except.ok resp2 =>
          let pr := setupNextSteps env r resp2
          (pr.1, [NetCall.introspectCall, NetCall.proceedCall ro.name payload] ++ pr.2)
  else
    (TransOut.err (Err.stepNotAvailable (AvailableSteps r)) r, [])

/-- Cancel of reset_password.go (lines 165-182). -/
def Cancel (env : NetEnv) (r : ResetPasswordResponse) :
    TransOut × List NetCall :=
  if HasStep r ResetPasswordStep.cancel then
    match env.introspect with
    | Except.error e => (TransOut.err e r, [NetCall.introspectCall])
    | Except.ok _ =>
      match env.cancelResp with
      | Except.error e =>
        (TransOut.err e r, [NetCall.introspectCall, NetCall.cancelNetCall])
      | Except.ok resp2 =>
        let pr := setupNextSteps env r resp2
        (pr.1, [NetCall.introspectCall, NetCall.cancelNetCall] ++ pr.2)
  else
    (TransOut.err (Err.stepNotAvailable (AvailableSteps r)) r, [])

/-- InitPasswordReset of reset_password.go (lines 22-58). -/
def InitPasswordReset (env : NetEnv) (ir : IdentifyRequest) :
    InitOut × List NetCall :=
  match env.interact with
  | Except.error e => (InitOut.err e, [NetCall.interactCall])
  | Except.ok ctx =>
    match env.introspect with
    | Except.error e => (InitOut.err e, [NetCall.interactCall, NetCall.introspectCall])
    | Except.ok resp =>
      match resp.remediationOption "identify" with
      | Except.error e =>
        (InitOut.err e, [NetCall.interactCall, NetCall.introspectCall])
      | Except.ok ro =>
        let b := identifyPayload ir
        match env.proceed ro.name b with
        | Except.error e =>
          (InitOut.err e,
           [NetCall.interactCall, NetCall.introspectCall, NetCall.proceedCall ro.name b])
        | Except.ok resp2 =>
          match resp2.currentAuthenticatorEnrollment with
          | none =>
            (InitOut.err (Err.enrollmentMissing (resp2.messages.map MessagesObj.values)),
             [NetCall.interactCall, NetCall.introspectCall, NetCall.proceedCall ro.name b])
          | some _ =>
            match env.recoverProceed with
            | Except.error e =>
              (InitOut.err e,
               [NetCall.interactCall, NetCall.introspectCall,
                NetCall.proceedCall ro.name b, NetCall.recoverProceedCall])
            | Except.ok resp3 =>
              let rpr : ResetPasswordResponse :=
                { idxContext := ctx, token := none, availableSteps := [], sq := none }
              let pr := setupNextSteps env rpr resp3
              let trace := [NetCall.interactCall, NetCall.introspectCall,
                            NetCall.proceedCall ro.name b, NetCall.recoverProceedCall] ++ pr.2
              match pr.1 with
              | TransOut.ok r1 => (InitOut.ok r1, trace)
              | TransOut.err e _ => (InitOut.err e, trace)
              | TransOut.nilDeref w _ => (InitOut.nilDeref w, trace)

/-- Auth status constant of idx.go (line 242). -/
def AuthStatusSuccess : String := "SUCCESS"

/-- Auth status constant of idx.go (line 243). -/
def AuthStatusPasswordExpired : String := "PASSWORD_EXPIRED"

/-- Auth status constant of idx.go (line 244); declared in the source but
never assigned by any code path. -/
def AuthStatusUnhandled : String := "UNHANDLED_RESPONSE"

/-- AuthenticationOptions of idx.go (lines 247-250). -/
structure AuthenticationOptions where
  username : String
  password : String
deriving DecidableEq, Repr

/-- AuthenticationResponse of idx.go (lines 256-260); a freshly
constructed value has the zero (empty) authentication status. -/
structure AuthenticationResponse where
  idxContext : IdxContext
  token : Option Token
  authenticationStatus : String
deriving DecidableEq, Repr

/-- The identifier payload of handleIdentityFirst (idx.go, lines 328-330). -/
def identifierPayload (username : String) : String :=
  "\x7b\n\t\"identifier\": \"" ++ username ++ "\"\n\x7d"

/-- The passcode payload of handleIdentityFirst (idx.go, lines 342-346);
unlike the reset flow it does not trim. -/
def authPasscodePayload (password : String) : String :=
  "\x7b\n\t\"credentials\": \x7b\n\t\t\"passcode\": \"" ++ password ++
    "\"\n\t\x7d\n\x7d"

/-- The combined payload of handleSingleStepIdentity (idx.go, lines
352-357). -/
def singleStepIdentityPayload (username password : String) : String :=
  "\x7b\n\t\"identifier\": \"" ++ username ++
    "\",\n\t\"credentials\": \x7b\n\t\t\"passcode\": \"" ++ password ++
    "\"\n\t\x7d\n\x7d"

/-- handleRemediation of idx.go (lines 298-320): on a success document,
exchange the code and report the SUCCESS status; on any other document
return the freshly constructed response unchanged (its status is still
the zero string). -/
def handleRemediation (env : NetEnv) (idxContext : IdxContext)
    (response : Response) : Except Err AuthenticationResponse × List NetCall :=
  let a0 : AuthenticationResponse :=
    { idxContext := idxContext, token := none, authenticationStatus := "" }
  if response.LoginSuccess then
    let form := exchangeForm env.clientSecret idxContext.codeVerifier
    match env.exchangeCode form with
    | Except.error e => (Except.error e, [NetCall.exchangeCodeCall form])
    | Except.ok tokens =>
      (Except.ok { a0 with token := some tokens,
                           authenticationStatus := AuthStatusSuccess },
       [NetCall.exchangeCodeCall form])
  else
    (Except.ok a0, [])

/-- handleIdentityFirst of idx.go (lines 327-349). -/
def handleIdentityFirst (env : NetEnv) (options : AuthenticationOptions)
    (ro : RemediationOption) : Except Err Response × List NetCall :=
  let identify := identifierPayload options.username
  match env.proceed ro.name identify with
  | Except.error e => (Except.error e, [NetCall.proceedCall ro.name identify])
  | Except.ok response =>
    match response.remediationOption "challenge-authenticator" with
    | Except.error e => (Except.error e, [NetCall.proceedCall ro.name identify])
    | Except.ok ro2 =>
      let credentials := authPasscodePayload options.password
      match env.proceed ro2.name credentials with
      | Except.error e =>
        (Except.error e,
         [NetCall.proceedCall ro.name identify, NetCall.proceedCall ro2.name credentials])
      | Except.ok r2 =>
        (Except.ok r2,
         [NetCall.proceedCall ro.name identify, NetCall.proceedCall ro2.name credentials])

/-- handleSingleStepIdentity of idx.go (lines 351-360); present in the
source but unreferenced by the public entry point. -/
def handleSingleStepIdentity (env : NetEnv) (options : AuthenticationOptions)
    (ro : RemediationOption) : Except Err Response × List NetCall :=
  let identify := singleStepIdentityPayload options.username options.password
  match env.proceed ro.name identify with
  | Except.error e => (Except.error e, [NetCall.proceedCall ro.name identify])
  | Except.ok r2 => (Except.ok r2, [NetCall.proceedCall ro.name identify])

/-- Authenticate of idx.go (lines 262-296). The Go function returns a
pair (pointer, error); Except.ok none models the (nil, nil) return of the
non-identifier-first branch (line 295). -/
def Authenticate (env : NetEnv) (options : AuthenticationOptions) :
    Except Err (Option AuthenticationResponse) × List NetCall :=
  match env.interact with
  | Except.error e => (Except.error e, [NetCall.interactCall])
  | Except.ok idxContext =>
    match env.introspect with
    | Except.error e =>
      (Except.error e, [NetCall.interactCall, NetCall.introspectCall])
    | Except.ok response =>
      match response.remediationOption "identify" with
      | Except.error e =>
        (Except.error e, [NetCall.interactCall, NetCall.introspectCall])
      | Except.ok ro =>
        match ro.IsIdentityFirst with
        | Except.error e =>
          (Except.error e, [NetCall.interactCall, NetCall.introspectCall])
        | Except.ok identityFirst =>
          if identityFirst then
            match handleIdentityFirst env options ro with
            | (Except.error e, calls) =>
              (Except.error e, [NetCall.interactCall, NetCall.introspectCall] ++ calls)
            | (Except.ok resp2, calls) =>
              let pr := handleRemediation env idxContext resp2
              let trace := [NetCall.interactCall, NetCall.introspectCall] ++ calls ++ pr.2
              match pr.1 with
              | Except.error e => (Except.error e, trace)
              | Except.ok a => (Except.ok (some a), trace)
          else
            (Except.ok none, [NetCall.interactCall, NetCall.introspectCall])

/-- The URL-safe base64 alphabet (RFC 4648 section 5), in index order. -/
def base64urlAlphabet : List Char :=
  "ABCDEFGHIJKLMNOPQRSTUVWXYZabcdefghijklmnopqrstuvwxyz0123456789-_".data

/-- The alphabet character at a six-bit index. -/
def b64char (n : Nat) : Char :=
  base64urlAlphabet.getD n 'A'

/-- Whether a character belongs to the URL-safe base64 alphabet. -/
def isB64Char (c : Char) : Bool :=
  base64urlAlphabet.contains c

/-- Whether a natural number is a byte value. -/
def isByte (n : Nat) : Bool :=
  n < 256

/-- base64.RawURLEncoding.EncodeToString of the Go standard library:
URL-safe base64 without padding over a byte list (bytes as naturals
below 256). -/
def base64RawURLEncode : List Nat → List Char
  | [] => []
  | [b1] => [b64char (b1 / 4), b64char (b1 % 4 * 16)]
  | [b1, b2] =>
    [b64char (b1 / 4), b64char (b1 % 4 * 16 + b2 / 16), b64char (b2 % 16 * 4)]
  | b1 :: b2 :: b3 :: rest =>
    b64char (b1 / 4) :: b64char (b1 % 4 * 16 + b2 / 16) ::
      b64char (b2 % 16 * 4 + b3 / 64) :: b64char (b3 % 64) ::
      base64RawURLEncode rest

/-- String form of the raw URL-safe base64 encoding. -/
def base64RawURLEncodeStr (bs : List Nat) : String :=
  String.mk (base64RawURLEncode bs)

/-- The bytes of an (ASCII) string, as Go obtains them by the byte-slice
conversion applied to the code verifier. -/
def strBytes (s : String) : List Nat :=
  s.data.map Char.toNat

/-- Environment of Interact: the two crypto/rand draws (createCodeVerifier
reads 86 bytes, createState reads 16), the SHA-256 function of the
standard library treated as an opaque byte function, the configured
values the form carries, and the interaction-handle response of the
remote end. -/
structure CryptoEnv where
  randVerifierBytes : List Nat
  randStateBytes : List Nat
  sha256 : List Nat → List Nat
  clientID : String
  scopes : String
  redirectURI : String
  interactionHandleResp : Except Err String

/-- createCodeVerifier of idx.go (lines 117-126): URL-safe base64 without
padding of the 86 random bytes. -/
def createCodeVerifier (env : CryptoEnv) : String :=
  base64RawURLEncodeStr env.randVerifierBytes

/-- createState of idx.go (lines 128-136): URL-safe base64 without
padding of the 16 random bytes. -/
def createState (env : CryptoEnv) : String :=
  base64RawURLEncodeStr env.randStateBytes

/-- The result of Interact: the populated session context and the
form-encoded fields the interact request submits. -/
structure InteractOut where
  ctx : IdxContext
  form : List (String × String)
deriving Repr

/-- Interact of idx.go (lines 138-197): generate the code verifier and
state, hash the verifier with SHA-256, encode the challenge, submit the
form, and populate the context with the returned interaction handle. -/
def Interact (env : CryptoEnv) : Except Err InteractOut :=
  let codeVerifier := createCodeVerifier env
  let state := createState env
  let codeChallenge := base64RawURLEncodeStr (env.sha256 (strBytes codeVerifier))
  let form := [("client_id", env.clientID), ("scope", env.scopes),
               ("code_challenge", codeChallenge),
               ("code_challenge_method", "S256"),
               ("redirect_uri", env.redirectURI), ("state", state)]
  match env.interactionHandleResp with
  | Except.error e => Except.error e
  | Except.ok h =>
    Except.ok { ctx := { codeVerifier := codeVerifier,
                         interactionHandle := h, state := state },
                form := form }

/-- A fixed session context for concrete evaluations. -/
def ctx0 : IdxContext :=
  { codeVerifier := "ver", interactionHandle := "h", state := "st" }

/-- A document offering only the skip option. -/
def skipDoc : Response :=
  { remediation := [{ name := "skip", formValues := [], identityFirst := some false }],
    messages := none, cancelResponse := none, successResponse := none,
    currentAuthenticatorEnrollment := none }

/-- A fixed security question. -/
def sq0 : SecurityQuestion := { questionKey := "k0", question := "Q0" }

/-- A state offering only the security-question step, with a cached
question. -/
def rSq : ResetPasswordResponse :=
  { idxContext := ctx0, token := none,
    availableSteps := [ResetPasswordStep.answerSecurityQuestion],
    sq := some sq0 }

/-- A challenge-authenticator option whose nested form carries a
questionKey field. -/
def challengeOpt : RemediationOption :=
  { name := "challenge-authenticator",
    formValues := [{ name := "credentials", label := "", value := "",
                     form := some { formValues :=
                       [{ name := "questionKey", label := "Q1", value := "k1" }] },
                     options := [] }],
    identityFirst := some false }

/-- A document whose only option is the security-question challenge. -/
def docQ : Response :=
  { remediation := [challengeOpt], messages := none, cancelResponse := none,
    successResponse := none, currentAuthenticatorEnrollment := none }

/-- An environment that always serves the security-question document. -/
def envQ : NetEnv :=
  { interact := Except.ok ctx0, introspect := Except.ok docQ,
    proceed := fun _ _ => Except.ok docQ, recoverProceed := Except.ok docQ,
    exchangeCode := fun _ => Except.error (Err.transport "e"),
    cancelResp := Except.ok docQ, clientSecret := "sec" }

/-- The state AnswerSecurityQuestion produces under envQ from rSq: the
step is offered again while the cached question has been cleared. -/
def rSqAfter : ResetPasswordResponse :=
  { idxContext := ctx0, token := none,
    availableSteps := [ResetPasswordStep.answerSecurityQuestion], sq := none }

/-- A dead-end document: no options, no markers, no messages. -/
def deadDoc : Response :=
  { remediation := [], messages := none, cancelResponse := none,
    successResponse := none, currentAuthenticatorEnrollment := none }

/-- An identify option configured for the identifier-first flow. -/
def identifyOpt : RemediationOption :=
  { name := "identify", formValues := [], identityFirst := some true }

/-- A document carrying the identify option and the enrollment marker. -/
def enrollDoc : Response :=
  { remediation := [identifyOpt], messages := none, cancelResponse := none,
    successResponse := none, currentAuthenticatorEnrollment := some () }

/-- An environment that leads InitPasswordReset to the dead-end document. -/
def envDead : NetEnv :=
  { interact := Except.ok ctx0, introspect := Except.ok enrollDoc,
    proceed := fun _ _ => Except.ok enrollDoc, recoverProceed := Except.ok deadDoc,
    exchangeCode := fun _ => Except.error (Err.transport "e"),
    cancelResp := Except.ok deadDoc, clientSecret := "sec" }

/-- A fixed token. -/
def tok0 : Token := { accessToken := "tok" }

/-- A document carrying the success marker. -/
def successDoc : Response :=
  { remediation := [], messages := none, cancelResponse := none,
    successResponse := some (), currentAuthenticatorEnrollment := none }

/-- An environment whose token exchange succeeds with tok0. -/
def envExchange : NetEnv :=
  { interact := Except.ok ctx0, introspect := Except.ok successDoc,
    proceed := fun _ _ => Except.ok successDoc,
    recoverProceed := Except.ok successDoc,
    exchangeCode := fun _ => Except.ok tok0,
    cancelResp := Except.ok successDoc, clientSecret := "sec" }

/-- A non-success document carrying the identify (identifier-first) and
challenge-authenticator options. -/
def docIF : Response :=
  { remediation := [identifyOpt, challengeOpt], messages := none,
    cancelResponse := none, successResponse := none,
    currentAuthenticatorEnrollment := none }

/-- An environment that always serves docIF. -/
def envIF : NetEnv :=
  { interact := Except.ok ctx0, introspect := Except.ok docIF,
    proceed := fun _ _ => Except.ok docIF, recoverProceed := Except.ok docIF,
    exchangeCode := fun _ => Except.error (Err.transport "e"),
    cancelResp := Except.ok docIF, clientSecret := "sec" }

/-- Fixed authentication options. -/
def opts0 : AuthenticationOptions := { username := "u", password := "p" }

/-- An authenticator-selection option offering the Email authenticator. -/
def emailOpt : RemediationOption :=
  { name := "select-authenticator-authenticate",
    formValues := [{ name := "authenticator", label := "", value := "",
                     form := none,
                     options := [{ label := "Email", id := "aid1" }] }],
    identityFirst := some false }

/-- A document whose only option is the Email authenticator selection,
with the enrollment marker VerifyEmail checks. -/
def emailDoc : Response :=
  { remediation := [emailOpt], messages := none, cancelResponse := none,
    successResponse := none, currentAuthenticatorEnrollment := some () }

/-- An environment that always serves emailDoc. -/
def envEmail : NetEnv :=
  { interact := Except.ok ctx0, introspect := Except.ok emailDoc,
    proceed := fun _ _ => Except.ok emailDoc, recoverProceed := Except.ok emailDoc,
    exchangeCode := fun _ => Except.error (Err.transport "e"),
    cancelResp := Except.ok emailDoc, clientSecret := "sec" }

/-- A state offering only the email-verification step. -/
def rEmail : ResetPasswordResponse :=
  { idxContext := ctx0, token := none,
    availableSteps := [ResetPasswordStep.emailVerification], sq := none }

/-- The state VerifyEmail produces under envEmail from rEmail. -/
def rEmailAfter : ResetPasswordResponse :=
  { idxContext := ctx0, token := none,
    availableSteps := [ResetPasswordStep.emailVerification,
                       ResetPasswordStep.emailConfirmation], sq := none }

/-- An identify option not configured for the identifier-first flow. -/
def identifyOptNF : RemediationOption :=
  { name := "identify", formValues := [], identityFirst := some false }

/-- A document carrying only the non-identifier-first identify option. -/
def docNF : Response :=
  { remediation := [identifyOptNF], messages := none, cancelResponse := none,
    successResponse := none, currentAuthenticatorEnrollment := none }

/-- An environment that always serves docNF. -/
def envNF : NetEnv :=
  { interact := Except.ok ctx0, introspect := Except.ok docNF,
    proceed := fun _ _ => Except.ok docNF, recoverProceed := Except.ok docNF,
    exchangeCode := fun _ => Except.error (Err.transport "e"),
    cancelResp := Except.ok docNF, clientSecret := "sec" }

/-- A crypto environment with fixed byte draws and a fixed hash. -/
def envPkce : CryptoEnv :=
  { randVerifierBytes := List.replicate 86 65,
    randStateBytes := List.replicate 16 1,
    sha256 := fun _ => List.replicate 32 2,
    clientID := "cid", scopes := "openid", redirectURI := "r",
    interactionHandleResp := Except.ok "handle" }

/-- The output Interact produces under envPkce. -/
def outPkce : InteractOut :=
  { ctx := { codeVerifier := createCodeVerifier envPkce,
             interactionHandle := "handle", state := createState envPkce },
    form := [("client_id", "cid"), ("scope", "openid"),
             ("code_challenge",
              base64RawURLEncodeStr
                (envPkce.sha256 (strBytes (createCodeVerifier envPkce)))),
             ("code_challenge_method", "S256"), ("redirect_uri", "r"),
             ("state", createState envPkce)] }

/-- An environment whose every remote end fails with a transport error. -/
def envNone : NetEnv :=
  { interact := Except.error (Err.transport "e"),
    introspect := Except.error (Err.transport "e"),
    proceed := fun _ _ => Except.error (Err.transport "e"),
    recoverProceed := Except.error (Err.transport "e"),
    exchangeCode := fun _ => Except.error (Err.transport "e"),
    cancelResp := Except.error (Err.transport "e"),
    clientSecret := "sec" }

/-- A response state whose only available step is Skip. -/
def rSkip : ResetPasswordResponse :=
  { idxContext := ctx0, token := none,
    availableSteps := [ResetPasswordStep.skip], sq := none }

/-- C1: each password-reset transition whose required step is absent from
the available-step set returns the error naming the currently available
steps, issues no network call, and leaves the response object (steps,
cached question, token) unchanged. -/
theorem transitions_reject_without_network (env : NetEnv)
    (r : ResetPasswordResponse) (code answer password : String) :
    (HasStep r ResetPasswordStep.emailVerification = false →
      VerifyEmail env r
        = (TransOut.err (Err.stepNotAvailable (AvailableSteps r)) r, [])) ∧
    (HasStep r ResetPasswordStep.emailConfirmation = false →
      ConfirmEmail env r code
        = (TransOut.err (Err.stepNotAvailable (AvailableSteps r)) r, [])) ∧
    (HasStep r ResetPasswordStep.answerSecurityQuestion = false →
      AnswerSecurityQuestion env r answer
        = (TransOut.err (Err.stepNotAvailable (AvailableSteps r)) r, [])) ∧
    (HasStep r ResetPasswordStep.newPassword = false →
      SetNewPassword env r password
        = (TransOut.err (Err.stepNotAvailable (AvailableSteps r)) r, [])) ∧
    (HasStep r ResetPasswordStep.cancel = false →
      Cancel env r
        = (TransOut.err (Err.stepNotAvailable (AvailableSteps r)) r, [])) := by
  refine ⟨fun h => ?_, fun h => ?_, fun h => ?_, fun h => ?_, fun h => ?_⟩ <;>
    simp [VerifyEmail, ConfirmEmail, AnswerSecurityQuestion, SetNewPassword,
          Cancel, h]

/-- Witness for C1 at a state whose only step is Skip. -/
theorem transitions_reject_without_network_witness :
    VerifyEmail envNone rSkip
      = (TransOut.err (Err.stepNotAvailable (AvailableSteps rSkip)) rSkip, []) ∧
    ConfirmEmail envNone rSkip "c"
      = (TransOut.err (Err.stepNotAvailable (AvailableSteps rSkip)) rSkip, []) ∧
    AnswerSecurityQuestion envNone rSkip "a"
      = (TransOut.err (Err.stepNotAvailable (AvailableSteps rSkip)) rSkip, []) ∧
    SetNewPassword envNone rSkip "p"
      = (TransOut.err (Err.stepNotAvailable (AvailableSteps rSkip)) rSkip, []) ∧
    Cancel envNone rSkip
      = (TransOut.err (Err.stepNotAvailable (AvailableSteps rSkip)) rSkip, []) := by
  obtain ⟨h1, h2, h3, h4, h5⟩ :=
    transitions_reject_without_network envNone rSkip "c" "a" "p"
  exact ⟨h1 (by decide), h2 (by decide), h3 (by decide), h4 (by decide),
         h5 (by decide)⟩

/-- Replacing the cached question from the same document twice is the
same as replacing it once. -/
theorem nextSq_idem (d : Response) (s : Option SecurityQuestion) :
    nextSq d (nextSq d s) = nextSq d s := by
  unfold nextSq
  cases hro : d.remediationOption "challenge-authenticator" with
  | error e => simp [hro]
  | ok ro =>
    cases hf : findQuestionKey ro.formValues with
    | none => simp [hro, hf]
    | some fld => simp [hro, hf]

/-- C7: setupNextSteps is idempotent on non-success documents: a second
run on the same document leaves the available steps and the cached
security question of the first run unchanged. -/
theorem setupNextSteps_idempotent (env : NetEnv) (r : ResetPasswordResponse)
    (d : Response) (h : d.LoginSuccess = false) :
    ((setupNextSteps env ((setupNextSteps env r d).1.post) d).1.post).availableSteps
      = ((setupNextSteps env r d).1.post).availableSteps ∧
    ((setupNextSteps env ((setupNextSteps env r d).1.post) d).1.post).sq
      = ((setupNextSteps env r d).1.post).sq := by
  simp only [setupNextSteps, h, Bool.false_eq_true, if_false]
  cases he : (computeSteps d).isEmpty with
  | true =>
    cases hm : d.messages with
    | none => simp [he, hm, TransOut.post, nextSq_idem]
    | some m => simp [he, hm, TransOut.post, nextSq_idem]
  | false => simp [he, TransOut.post, nextSq_idem]

/-- Witness for C7 at a concrete non-success document. -/
theorem setupNextSteps_idempotent_witness :
    ((setupNextSteps envNone ((setupNextSteps envNone rSkip skipDoc).1.post) skipDoc).1.post).availableSteps
      = ((setupNextSteps envNone rSkip skipDoc).1.post).availableSteps ∧
    ((setupNextSteps envNone ((setupNextSteps envNone rSkip skipDoc).1.post) skipDoc).1.post).sq
      = ((setupNextSteps envNone rSkip skipDoc).1.post).sq :=
  setupNextSteps_idempotent envNone rSkip skipDoc (by decide)

/-- C2: on a success document, setupNextSteps issues exactly one
token-exchange call, whose payload contains the configured client secret
and the session's code verifier as substrings; when the exchange
succeeds, the token is stored and the available steps become exactly the
success step. -/
theorem setupNextSteps_success_exchange (env : NetEnv)
    (r : ResetPasswordResponse) (d : Response) (t : Token)
    (h : d.LoginSuccess = true)
    (ht : env.exchangeCode (exchangeForm env.clientSecret r.idxContext.codeVerifier)
            = Except.ok t) :
    (setupNextSteps env r d).2
      = [NetCall.exchangeCodeCall (exchangeForm env.clientSecret r.idxContext.codeVerifier)] ∧
    (setupNextSteps env r d).1
      = TransOut.ok { r with token := some t,
                             availableSteps := [ResetPasswordStep.success] } ∧
    List.IsInfix env.clientSecret.data
      (exchangeForm env.clientSecret r.idxContext.codeVerifier).data ∧
    List.IsInfix r.idxContext.codeVerifier.data
      (exchangeForm env.clientSecret r.idxContext.codeVerifier).data := by
  refine ⟨?_, ?_, ?_, ?_⟩
  · simp [setupNextSteps, h, ht]
  · simp [setupNextSteps, h, ht]
  · exact ⟨("\x7b\n\t\"client_secret\": \"" : String).data,
           (("\",\n\t\"code_verifier\": \"" ++ r.idxContext.codeVerifier
              ++ "\"\n\x7d" : String)).data,
           by simp [exchangeForm, String.data_append, List.append_assoc]⟩
  · exact ⟨(("\x7b\n\t\"client_secret\": \"" ++ env.clientSecret
              ++ "\",\n\t\"code_verifier\": \"" : String)).data,
           ("\"\n\x7d" : String).data,
           by simp [exchangeForm, String.data_append, List.append_assoc]⟩

/-- Witness for C2 under the environment whose exchange succeeds. -/
theorem setupNextSteps_success_exchange_witness :
    (setupNextSteps envExchange rSkip successDoc).2
      = [NetCall.exchangeCodeCall (exchangeForm envExchange.clientSecret rSkip.idxContext.codeVerifier)] ∧
    (setupNextSteps envExchange rSkip successDoc).1
      = TransOut.ok { rSkip with token := some tok0,
                                 availableSteps := [ResetPasswordStep.success] } ∧
    List.IsInfix envExchange.clientSecret.data
      (exchangeForm envExchange.clientSecret rSkip.idxContext.codeVerifier).data ∧
    List.IsInfix rSkip.idxContext.codeVerifier.data
      (exchangeForm envExchange.clientSecret rSkip.idxContext.codeVerifier).data :=
  setupNextSteps_success_exchange envExchange rSkip successDoc tok0 rfl rfl

/-- Counterexample to C3: when introspection fails, AnswerSecurityQuestion
returns before registering the deferred clearing, so the cached
SecurityQuestion is NOT empty after the failing call. -/
theorem answer_sq_not_cleared_cex :
    HasStep rSq ResetPasswordStep.answerSecurityQuestion = true ∧
    (AnswerSecurityQuestion envNone rSq "ans").1
      = TransOut.err (Err.transport "e") rSq ∧
    ((AnswerSecurityQuestion envNone rSq "ans").1.post).sq = some sq0 := by
  refine ⟨by decide, by rfl, by rfl⟩

/-- C3 (amended): once the Proceed submission of AnswerSecurityQuestion
succeeds, the cached SecurityQuestion is empty afterwards whether the
step recomputation succeeds or fails; errors before or at submission
leave it unchanged. -/
theorem answer_sq_cleared_after_submission (env : NetEnv)
    (r : ResetPasswordResponse) (answer : String) (resp : Response)
    (ro : RemediationOption) (q : SecurityQuestion) (resp2 : Response)
    (hstep : HasStep r ResetPasswordStep.answerSecurityQuestion = true)
    (hI : env.introspect = Except.ok resp)
    (hO : resp.remediationOption "challenge-authenticator" = Except.ok ro)
    (hq : r.sq = some q)
    (hP : env.proceed ro.name (credentialsPayload q.questionKey answer)
            = Except.ok resp2) :
    ((AnswerSecurityQuestion env r answer).1.post).sq = none := by
  simp only [AnswerSecurityQuestion, hstep, if_true, hI, hO, hq, hP]
  cases hs : (setupNextSteps env r resp2).1 <;> simp [TransOut.post]

/-- Witness for the amended C3. -/
theorem answer_sq_cleared_after_submission_witness :
    ((AnswerSecurityQuestion envQ rSq "ans").1.post).sq = none :=
  answer_sq_cleared_after_submission envQ rSq "ans" docQ challengeOpt sq0 docQ
    (by decide) rfl rfl rfl rfl

/-- C4 (code bug): on a dead-end document carrying no messages,
setupNextSteps dereferences the absent message list instead of returning
the dead-end error, and InitPasswordReset reaching such a document does
the same; the step set is left unchanged up to that point. -/
theorem deadend_nil_messages_bug :
    (setupNextSteps envDead rSkip deadDoc).1
      = TransOut.nilDeref "resp.Messages" rSkip ∧
    (InitPasswordReset envDead { identifier := "u", rememberMe := false }).1
      = InitOut.nilDeref "resp.Messages" := by
  exact ⟨rfl, rfl⟩

/-- C9 (code bug): after a successful AnswerSecurityQuestion whose
recomputed document again offers a security question, the available
steps contain AnswerSecurityQuestion while the cached SecurityQuestion
is empty (the claimed invariant fails), and the next
AnswerSecurityQuestion call dereferences the absent question. -/
theorem answer_sq_invariant_bug :
    (AnswerSecurityQuestion envQ rSq "ans").1 = TransOut.ok rSqAfter ∧
    HasStep rSqAfter ResetPasswordStep.answerSecurityQuestion = true ∧
    rSqAfter.sq = none ∧
    (AnswerSecurityQuestion envQ rSqAfter "ans").1
      = TransOut.nilDeref "r.sq" rSqAfter := by
  refine ⟨by rfl, by rfl, rfl, by rfl⟩

/-- Counterexample to C5: on the identifier-first path with a non-success
resulting document, Authenticate returns a response whose status is the
empty zero-value string, not the UNHANDLED_RESPONSE constant. -/
theorem authenticate_status_cex :
    (Authenticate envIF opts0).1
      = Except.ok (some { idxContext := ctx0, token := none,
                          authenticationStatus := "" }) ∧
    "" ≠ AuthStatusUnhandled := by
  refine ⟨by rfl, by decide⟩

/-- C5 (amended): on the identifier-first path whose resulting document
is not a success marker, Authenticate returns a non-nil response with a
nil error, but its authentication status is the empty string (the zero
value), not AuthStatusUnhandled. -/
theorem authenticate_identity_first_soft_status (env : NetEnv)
    (options : AuthenticationOptions) (ctx : IdxContext) (r0 : Response)
    (ro : RemediationOption) (d : Response) (calls : List NetCall)
    (h1 : env.interact = Except.ok ctx)
    (h2 : env.introspect = Except.ok r0)
    (h3 : r0.remediationOption "identify" = Except.ok ro)
    (h4 : ro.IsIdentityFirst = Except.ok true)
    (h5 : handleIdentityFirst env options ro = (Except.ok d, calls))
    (h6 : d.LoginSuccess = false) :
    (Authenticate env options).1
      = Except.ok (some { idxContext := ctx, token := none,
                          authenticationStatus := "" }) := by
  simp [Authenticate, h1, h2, h3, h4, h5, handleRemediation, h6]

/-- Witness for the amended C5. -/
theorem authenticate_identity_first_soft_status_witness :
    (Authenticate envIF opts0).1
      = Except.ok (some { idxContext := ctx0, token := none,
                          authenticationStatus := "" }) :=
  authenticate_identity_first_soft_status envIF opts0 ctx0 docIF identifyOpt
    docIF
    [NetCall.proceedCall "identify" (identifierPayload "u"),
     NetCall.proceedCall "challenge-authenticator" (authPasscodePayload "p")]
    rfl rfl rfl rfl rfl rfl

/-- C10: when the identify option is present but the provider is not
configured for the identifier-first flow, Authenticate returns a nil
response together with a nil error. -/
theorem authenticate_non_identity_first (env : NetEnv)
    (options : AuthenticationOptions) (ctx : IdxContext) (r0 : Response)
    (ro : RemediationOption)
    (h1 : env.interact = Except.ok ctx)
    (h2 : env.introspect = Except.ok r0)
    (h3 : r0.remediationOption "identify" = Except.ok ro)
    (h4 : ro.IsIdentityFirst = Except.ok false) :
    (Authenticate env options).1 = Except.ok none := by
  simp [Authenticate, h1, h2, h3, h4]

/-- Witness for C10. -/
theorem authenticate_non_identity_first_witness :
    (Authenticate envNF opts0).1 = Except.ok none :=
  authenticate_non_identity_first envNF opts0 ctx0 docNF identifyOptNF
    rfl rfl rfl rfl

/-- C6: a document whose only recognizable option is the Email
authenticator selection yields exactly the EmailVerification step, and
every successful VerifyEmail call leaves EmailConfirmation among the
resulting available steps. -/
theorem email_verification_scenario (env : NetEnv)
    (r : ResetPasswordResponse) (d : Response) (ro : RemediationOption)
    (aid : String) (e1 e2 e3 : Err) (r1 : ResetPasswordResponse)
    (h0 : d.LoginSuccess = false)
    (h1 : d.cancelResponse = none)
    (h2 : d.authenticatorOption "select-authenticator-authenticate" "Email"
            = Except.ok (ro, aid))
    (h3 : d.remediationOption "skip" = Except.error e1)
    (h4 : d.remediationOption "challenge-authenticator" = Except.error e2)
    (h5 : d.remediationOption "reset-authenticator" = Except.error e3)
    (h6 : (VerifyEmail env r).1 = TransOut.ok r1) :
    (setupNextSteps env r d).1
      = TransOut.ok { r with availableSteps := [ResetPasswordStep.emailVerification] } ∧
    HasStep r1 ResetPasswordStep.emailConfirmation = true := by
  constructor
  · have hsteps : computeSteps d = [ResetPasswordStep.emailVerification] := by
      simp [computeSteps, h1, h2, h3, h4, h5]
    have hsq : nextSq d r.sq = r.sq := by simp [nextSq, h4]
    simp [setupNextSteps, h0, hsteps, hsq]
  · by_cases hstep : HasStep r ResetPasswordStep.emailVerification = true
    · simp only [VerifyEmail, hstep, if_true] at h6
      repeat' split at h6
      all_goals (try dsimp only at h6)
      all_goals (try (exact TransOut.noConfusion h6))
      injection h6 with h7
      subst h7
      simp [HasStep]
    · simp [VerifyEmail, hstep] at h6

/-- Witness for C6 under the Email-only environment. -/
theorem email_verification_scenario_witness :
    (setupNextSteps envEmail rEmail emailDoc).1
      = TransOut.ok { rEmail with availableSteps := [ResetPasswordStep.emailVerification] } ∧
    HasStep rEmailAfter ResetPasswordStep.emailConfirmation = true :=
  email_verification_scenario envEmail rEmail emailDoc emailOpt "aid1"
    (Err.optionNotFound "skip") (Err.optionNotFound "challenge-authenticator")
    (Err.optionNotFound "reset-authenticator") rEmailAfter
    rfl rfl rfl rfl rfl rfl rfl

/-- Every six-bit index maps into the URL-safe alphabet. -/
theorem b64char_mem : ∀ k : Fin 64, isB64Char (b64char k.val) = true := by
  decide

/-- Alphabet membership for an index below 64. -/
theorem b64char_ok {k : Nat} (h : k < 64) : isB64Char (b64char k) = true :=
  b64char_mem ⟨k, h⟩

/-- Length of the raw URL-safe base64 encoding: four characters per full
three-byte group, two or three characters for a trailing group. -/
theorem base64RawURLEncode_length : ∀ bs : List Nat,
    (base64RawURLEncode bs).length
      = 4 * (bs.length / 3)
        + (if bs.length % 3 = 0 then 0 else bs.length % 3 + 1)
  | [] => by simp [base64RawURLEncode]
  | [b1] => by simp [base64RawURLEncode]
  | [b1, b2] => by simp [base64RawURLEncode]
  | b1 :: b2 :: b3 :: rest => by
    have ih := base64RawURLEncode_length rest
    have h3 : (rest.length + 1 + 1 + 1) % 3 = rest.length % 3 := by omega
    have h4 : (rest.length + 1 + 1 + 1) / 3 = rest.length / 3 + 1 := by omega
    simp only [base64RawURLEncode, List.length_cons, ih, h3, h4]
    omega

/-- Every character of the encoding of a byte list belongs to the
URL-safe alphabet. -/
theorem base64RawURLEncode_alphabet : ∀ bs : List Nat,
    bs.all isByte = true → (base64RawURLEncode bs).all isB64Char = true
  | [], _ => rfl
  | [b1], h => by
    simp only [List.all_cons, List.all_nil, Bool.and_true, isByte,
      decide_eq_true_eq] at h
    simp only [base64RawURLEncode, List.all_cons, List.all_nil, Bool.and_true,
      Bool.and_eq_true]
    exact ⟨b64char_ok (by omega), b64char_ok (by omega)⟩
  | [b1, b2], h => by
    simp only [List.all_cons, List.all_nil, Bool.and_true, Bool.and_eq_true,
      isByte, decide_eq_true_eq] at h
    obtain ⟨hb1, hb2⟩ := h
    simp only [base64RawURLEncode, List.all_cons, List.all_nil, Bool.and_true,
      Bool.and_eq_true]
    exact ⟨b64char_ok (by omega), b64char_ok (by omega), b64char_ok (by omega)⟩
  | b1 :: b2 :: b3 :: rest, h => by
    simp only [List.all_cons, Bool.and_eq_true, isByte,
      decide_eq_true_eq] at h
    obtain ⟨hb1, hb2, hb3, hrest⟩ := h
    have ih := base64RawURLEncode_alphabet rest hrest
    simp only [base64RawURLEncode, List.all_cons, Bool.and_eq_true]
    exact ⟨b64char_ok (by omega), b64char_ok (by omega),
           b64char_ok (by omega), b64char_ok (by omega), ih⟩

/-- C8: for an Interact call, the code verifier is the unpadded URL-safe
base64 encoding of the 86 random bytes (115 characters over the URL-safe
alphabet), the state encodes the 16 random bytes (22 characters over the
same alphabet), and the submitted code challenge is the unpadded URL-safe
base64 encoding of the SHA-256 hash of the encoded verifier, hence a
deterministic function of the verifier. -/
theorem interact_pkce (env : CryptoEnv) (out : InteractOut)
    (hv : env.randVerifierBytes.length = 86)
    (hvb : env.randVerifierBytes.all isByte = true)
    (hs : env.randStateBytes.length = 16)
    (hsb : env.randStateBytes.all isByte = true)
    (hok : Interact env = Except.ok out) :
    out.ctx.codeVerifier = base64RawURLEncodeStr env.randVerifierBytes ∧
    out.ctx.state = base64RawURLEncodeStr env.randStateBytes ∧
    out.ctx.codeVerifier.length = 115 ∧
    out.ctx.codeVerifier.data.all isB64Char = true ∧
    out.ctx.state.length = 22 ∧
    out.ctx.state.data.all isB64Char = true ∧
    out.form.lookup "code_challenge"
      = some (base64RawURLEncodeStr
                (env.sha256 (strBytes out.ctx.codeVerifier))) := by
  rcases hh : env.interactionHandleResp with e | handle
  · rw [Interact, hh] at hok
    exact absurd hok (by simp)
  · rw [Interact, hh] at hok
    simp only [Except.ok.injEq] at hok
    subst hok
    refine ⟨rfl, rfl, ?_, ?_, ?_, ?_, rfl⟩
    · show (base64RawURLEncode env.randVerifierBytes).length = 115
      rw [base64RawURLEncode_length, hv]
      decide
    · exact base64RawURLEncode_alphabet env.randVerifierBytes hvb
    · show (base64RawURLEncode env.randStateBytes).length = 22
      rw [base64RawURLEncode_length, hs]
      decide
    · exact base64RawURLEncode_alphabet env.randStateBytes hsb

/-- Witness for C8 at fixed byte draws. -/
theorem interact_pkce_witness :
    outPkce.ctx.codeVerifier = base64RawURLEncodeStr envPkce.randVerifierBytes ∧
    outPkce.ctx.state = base64RawURLEncodeStr envPkce.randStateBytes ∧
    outPkce.ctx.codeVerifier.length = 115 ∧
    outPkce.ctx.codeVerifier.data.all isB64Char = true ∧
    outPkce.ctx.state.length = 22 ∧
    outPkce.ctx.state.data.all isB64Char = true ∧
    outPkce.form.lookup "code_challenge"
      = some (base64RawURLEncodeStr
                (envPkce.sha256 (strBytes outPkce.ctx.codeVerifier))) :=
  interact_pkce envPkce outPkce (by decide) (by decide) (by decide) (by decide)
    rfl
